import Mathlib

/-!
A shallow embedding of Kiali's mTLS policy-resolution engine and host
visibility index, together with theorems checking the natural-language
specification of those functions against the code.

The embedding covers:
* `kubernetes/istio.go`: `PeerAuthnMTLSMode`, `PeerAuthnHasMTLSEnabled`,
  `DestinationRuleHasMTLSEnabled` (and its host-specific variants),
  `MatchPortNameRule`, `IsExportedTo`, `parseExportToAnnotation`,
  `NewKubeServiceHosts`, `HasHost`, `IsValidForNamespace`.
* `util/mtls/status.go`: `MtlsStatus` with `finalStatus`,
  `hasPeerAuthnNamespacemTLSDefinition`, `hasPeerAuthnMeshTLSDefinition`,
  `WorkloadMtlsStatus`, `NamespaceMtlsStatus`, `OverallMtlsStatus`,
  `inheritedOverallStatus` and the `TlsStatus` helper predicates.

Go maps of strings are modelled as association lists (`List (String × String)`);
Go's nil map and empty map are both modelled by `[]`, which is faithful for the
operations the code performs (`len`, iteration, keyed lookup).  Nilable pointers
become `Option`.  Go's `labels.Set(sel).AsSelector().Matches(lbls)` is exact
key/value subset matching, embedded as `selectorMatches`.
-/

/-! ### Status constants (util/mtls/status.go) -/

def MTLSEnabled : String := "MTLS_ENABLED"

def MTLSPartiallyEnabled : String := "MTLS_PARTIALLY_ENABLED"

def MTLSNotEnabled : String := "MTLS_NOT_ENABLED"

def MTLSDisabled : String := "MTLS_DISABLED"

/-! ### Policy object data model -/

/-- `istio.io/api/security/v1` `PeerAuthentication_MutualTLS_Mode` enum. -/
inductive PeerAuthnMutualTLSMode where
  | UNSET
  | DISABLE
  | PERMISSIVE
  | STRICT
deriving DecidableEq, Repr

/-- The protobuf `Mode.String()` rendering used by the Go code. -/
def PeerAuthnMutualTLSMode.str : PeerAuthnMutualTLSMode → String
  | .UNSET => "UNSET"
  | .DISABLE => "DISABLE"
  | .PERMISSIVE => "PERMISSIVE"
  | .STRICT => "STRICT"

/-- `istio.io/api/networking/v1` `ClientTLSSettings_TLSmode` enum. -/
inductive ClientTLSMode where
  | DISABLE
  | SIMPLE
  | MUTUAL
  | ISTIO_MUTUAL
deriving DecidableEq, Repr

/-- The protobuf `Mode.String()` rendering used by the Go code. -/
def ClientTLSMode.str : ClientTLSMode → String
  | .DISABLE => "DISABLE"
  | .SIMPLE => "SIMPLE"
  | .MUTUAL => "MUTUAL"
  | .ISTIO_MUTUAL => "ISTIO_MUTUAL"

/-- `istio.io/api/type/v1beta1` `WorkloadSelector`: exact label matches.
`MatchLabels` is a Go `map[string]string`; nil and empty collapse to `[]`. -/
structure WorkloadSelector where
  MatchLabels : List (String × String)
deriving DecidableEq, Repr

/-- `security_v1.PeerAuthentication`, restricted to the fields the engine
reads: `Spec.Selector` (nilable) and `Spec.Mtls` (nilable). -/
structure PeerAuthentication where
  Selector : Option WorkloadSelector
  Mtls : Option PeerAuthnMutualTLSMode
deriving DecidableEq, Repr

/-- `api_networking_v1.ClientTLSSettings`, restricted to `Mode`. -/
structure ClientTLSSettings where
  Mode : ClientTLSMode
deriving DecidableEq, Repr

/-- `api_networking_v1.TrafficPolicy`, restricted to `Tls` (nilable). -/
structure TrafficPolicy where
  Tls : Option ClientTLSSettings
deriving DecidableEq, Repr

/-- `networking_v1.DestinationRule`, restricted to the fields the engine
reads: `Namespace`, `Spec.Host` and `Spec.TrafficPolicy` (nilable). -/
structure DestinationRule where
  Namespace : String
  Host : String
  TrafficPolicy : Option TrafficPolicy
deriving DecidableEq, Repr

/-- A `core_v1.ServicePort`, restricted to name and port number. -/
structure ServicePort where
  name : String
  port : Int
deriving DecidableEq, Repr

/-- `core_v1.Service`, restricted to the fields the engine reads:
`Name`, `Namespace`, `Annotations` (a Go string map), `Spec.Selector`
(a Go string map) and `Spec.Ports`. -/
structure Service where
  Name : String
  Namespace : String
  Annotations : List (String × String)
  Selector : List (String × String)
  Ports : List ServicePort
deriving DecidableEq, Repr

/-- The slice of `config.Config` the engine reads:
`ExternalServices.Istio.IstioIdentityDomain`. -/
structure Config where
  IstioIdentityDomain : String
deriving DecidableEq, Repr

/-! ### Character-level string primitives

The Go code uses `strings.Split`, `strings.TrimSpace`, `strings.ToLower`,
`strings.HasPrefix`, byte-slicing and `len`.  They are embedded here as
structurally recursive functions over `String.data` so that every definition
in this file evaluates by kernel reduction.  Byte positions and rune
positions agree at every use site (slicing only ever happens right after an
equal prefix has been established). -/

/-- `strings.Split(s, ",")` on the character list, with an accumulator for
the segment being read. -/
def splitOnCommaAux : List Char → List Char → List String
  | [], acc => [⟨acc.reverse⟩]
  | c :: rest, acc =>
    if c = ',' then ⟨acc.reverse⟩ :: splitOnCommaAux rest []
    else splitOnCommaAux rest (c :: acc)

/-- `strings.Split(s, ",")`. -/
def splitOnComma (s : String) : List String := splitOnCommaAux s.data []

/-- `strings.TrimSpace`: strip leading and trailing whitespace. -/
def trimSpace (s : String) : String :=
  ⟨(((s.data.dropWhile Char.isWhitespace).reverse).dropWhile Char.isWhitespace).reverse⟩

/-- `strings.ToLower`. -/
def lowerStr (s : String) : String := ⟨s.data.map Char.toLower⟩

/-- `strings.HasPrefix s pre`. -/
def hasPrefixStr (s pre : String) : Bool := pre.data.isPrefixOf s.data

/-- The Go slice `s[n:]`. -/
def dropStr (s : String) (n : Nat) : String := ⟨s.data.drop n⟩

/-- `len(s)`. -/
def lenStr (s : String) : Nat := s.data.length

/-- `labels.Set(sel).AsSelector().Matches(lbls)`: every key/value pair of the
selector map must be present in the candidate label set. -/
def selectorMatches (sel lbls : List (String × String)) : Bool :=
  sel.all fun kv => lbls.lookup kv.1 == some kv.2

/-! ### kubernetes/istio.go leaf functions -/

/-- `PeerAuthnMTLSMode`: the mode string of `Spec.Mtls` when present,
flagged when it is `STRICT` or `PERMISSIVE`; `(false, "")` when `Spec.Mtls`
is nil. -/
def PeerAuthnMTLSMode (peerAuthn : PeerAuthentication) : Bool × String :=
  match peerAuthn.Mtls with
  | some mtls =>
    let mode := mtls.str
    (mode == "STRICT" || mode == "PERMISSIVE", mode)
  | none => (false, "")

/-- `PeerAuthnHasMTLSEnabled`: a policy with a non-nil `Spec.Selector` is not
globally enabled (the source guards with `len(MatchLabels) >= 0`, which is
always true); otherwise defers to `PeerAuthnMTLSMode`. -/
def PeerAuthnHasMTLSEnabled (peerAuthn : PeerAuthentication) : Bool × String :=
  match peerAuthn.Selector with
  | some sel =>
    if 0 ≤ sel.MatchLabels.length then (false, "")
    else PeerAuthnMTLSMode peerAuthn
  | none => PeerAuthnMTLSMode peerAuthn

/-- `DestinationRuleHasMTLSEnabled`: the TLS mode string of
`Spec.TrafficPolicy.Tls` when both pointers are non-nil, flagged when the
mode is `ISTIO_MUTUAL`. -/
def DestinationRuleHasMTLSEnabled (destinationRule : DestinationRule) : Bool × String :=
  match destinationRule.TrafficPolicy with
  | some tp =>
    match tp.Tls with
    | some tls =>
      let mode := tls.Mode.str
      (mode == "ISTIO_MUTUAL", mode)
    | none => (false, "")
  | none => (false, "")

/-- `DestinationRuleHasMTLSEnabledForHost`: only rules whose non-empty host
equals the expected host are considered. -/
def DestinationRuleHasMTLSEnabledForHost (expectedHost : String)
    (destinationRule : DestinationRule) : Bool × String :=
  if destinationRule.Host == "" || destinationRule.Host != expectedHost then (false, "")
  else DestinationRuleHasMTLSEnabled destinationRule

/-- `DestinationRuleHasNamespaceWideMTLSEnabled`: namespace-wide convention
host `*.<namespace>.<identity domain>`. -/
def DestinationRuleHasNamespaceWideMTLSEnabled (ns : String)
    (destinationRule : DestinationRule) (conf : Config) : Bool × String :=
  DestinationRuleHasMTLSEnabledForHost ("*." ++ ns ++ "." ++ conf.IstioIdentityDomain)
    destinationRule

/-- `DestinationRuleHasMeshWideMTLSEnabled`: mesh-wide convention host `*.local`. -/
def DestinationRuleHasMeshWideMTLSEnabled (destinationRule : DestinationRule) : Bool × String :=
  DestinationRuleHasMTLSEnabledForHost "*.local" destinationRule

/-- The regexp `portNameMatcher = ^[\-].*` as a predicate: it accepts exactly
the strings that begin with a dash (the `.*` may match the empty string). -/
def portNameMatcherMatches (s : String) : Bool :=
  hasPrefixStr s "-"

/-- `MatchPortNameRule`: `tcp`/`udp` protocols never constrain the name;
otherwise the name must start with the lowercased protocol and, when longer,
the remainder must match `portNameMatcher`. -/
def MatchPortNameRule (portName protocol : String) : Bool :=
  let protocol := lowerStr protocol
  if protocol == "tcp" || protocol == "udp" then
    true
  else if !(hasPrefixStr portName protocol) then
    false
  else if lenStr portName > lenStr protocol then
    portNameMatcherMatches (dropStr portName (lenStr protocol))
  else
    true

/-- `IsExportedTo`: an empty exportTo list means visible everywhere; otherwise
the tokens are scanned in order, `*` always matching, `.` matching the
resource's own namespace, `~` never matching, and any other literal matching
the viewer namespace exactly. -/
def IsExportedTo (exportTo : List String) (resourceNamespace viewerNamespace : String) : Bool :=
  if exportTo.length == 0 then true
  else go exportTo
where
  go : List String → Bool
    | [] => false
    | exp :: rest =>
      if exp == "*" then true
      else if exp == "." then
        if resourceNamespace == viewerNamespace then true else go rest
      else if exp == "~" then go rest
      else if exp == viewerNamespace then true
      else go rest

/-! ### kubernetes/istio.go host visibility index -/

/-- The annotation key `networking.istio.io/exportTo` (`ExportToAnnotation`
in the source). -/
def exportToAnnotationKey : String := "networking.istio.io/exportTo"

/-- `parseExportToAnnotation`: split on commas, trim each segment, discard
empty segments. -/
def parseExportToAnnotationList (ann : String) : List String :=
  (splitOnComma ann).filterMap fun p =>
    let p := trimSpace p
    if p == "" then none else some p

/-- `kubeServiceEntry`: the shared record every hostname spelling of one
service points at. -/
structure KubeServiceEntry where
  Namespace : String
  exportTo : List String
deriving DecidableEq, Repr

/-- Go map assignment `entries[k] = v` on an association-list model:
replace the binding when the key is present, append it otherwise. -/
def insertEntry : List (String × KubeServiceEntry) → String → KubeServiceEntry →
    List (String × KubeServiceEntry)
  | [], k, v => [(k, v)]
  | (k', v') :: rest, k, v =>
    if k' = k then (k, v) :: rest else (k', v') :: insertEntry rest k v

/-- `KubeServiceHosts`: mapping from hostname spelling to shared entry. -/
structure KubeServiceHosts where
  entries : List (String × KubeServiceEntry)
deriving DecidableEq, Repr

/-- The entry built in the body of the `NewKubeServiceHosts` loop: the
service's own annotation wins outright; otherwise the mesh-wide default. -/
def entryForService (svc : Service) (defaultExportTo : List String) : KubeServiceEntry :=
  { Namespace := svc.Namespace
    exportTo :=
      match svc.Annotations.lookup exportToAnnotationKey with
      | some ann => parseExportToAnnotationList ann
      | none => defaultExportTo }

/-- The fully-qualified key form `name.namespace.<identity domain>`. -/
def fqdnKey (conf : Config) (svc : Service) : String :=
  svc.Name ++ "." ++ svc.Namespace ++ "." ++ conf.IstioIdentityDomain

/-- The short key form `name.namespace.svc`. -/
def shortFqdnKey (svc : Service) : String :=
  svc.Name ++ "." ++ svc.Namespace ++ ".svc"

/-- The two-part key form `name.namespace`. -/
def twoPartKey (svc : Service) : String :=
  svc.Name ++ "." ++ svc.Namespace

/-- One iteration of the `NewKubeServiceHosts` loop: register the service's
shared entry under its three key forms. -/
def registerService (conf : Config) (defaultExportTo : List String)
    (entries : List (String × KubeServiceEntry)) (svc : Service) :
    List (String × KubeServiceEntry) :=
  let entry := entryForService svc defaultExportTo
  insertEntry (insertEntry (insertEntry entries (fqdnKey conf svc) entry)
    (shortFqdnKey svc) entry) (twoPartKey svc) entry

/-- `NewKubeServiceHosts`: build the index from K8s services, the config's
identity domain and the mesh-wide default exportTo list. -/
def NewKubeServiceHosts (services : List Service) (conf : Config)
    (defaultExportTo : List String) : KubeServiceHosts :=
  { entries := services.foldl (registerService conf defaultExportTo) [] }

/-- `HasHost`: key membership, ignoring visibility. -/
def KubeServiceHosts.HasHost (h : KubeServiceHosts) (host : String) : Bool :=
  (h.entries.lookup host).isSome

/-- `IsValidForNamespace`: the host must be registered and its entry exported
to the given namespace. -/
def KubeServiceHosts.IsValidForNamespace (h : KubeServiceHosts) (host ns : String) : Bool :=
  match h.entries.lookup host with
  | none => false
  | some entry => IsExportedTo entry.exportTo entry.Namespace ns

/-- Modelled from the spec: `FilterDestinationRulesByService` is called by
`WorkloadMtlsStatus` but its definition is not among the supplied sources.
Per the spec it selects, from the supplied destination rules, those that
"target that service's host"; the hostname spellings of a service are its
fully-qualified, short, two-part and bare-name forms. -/
def FilterDestinationRulesByService (destinationRules : List DestinationRule)
    (ns svcName : String) (conf : Config) : List DestinationRule :=
  destinationRules.filter fun dr =>
    dr.Host == svcName ++ "." ++ ns ++ "." ++ conf.IstioIdentityDomain ||
    dr.Host == svcName ++ "." ++ ns ++ ".svc" ||
    dr.Host == svcName ++ "." ++ ns ||
    dr.Host == svcName

/-! ### util/mtls/status.go -/

/-- `mtls.MtlsStatus`: the evaluation context. -/
structure MtlsStatus where
  AllowPermissive : Bool
  AutoMtlsEnabled : Bool
  DestinationRules : List DestinationRule
  MatchingLabels : List (String × String)
  PeerAuthentications : List PeerAuthentication
  Services : List Service
deriving DecidableEq, Repr

/-- `mtls.TlsStatus`: the per-evaluation result triple. -/
structure TlsStatus where
  DestinationRuleStatus : String
  PeerAuthenticationStatus : String
  OverallStatus : String
deriving DecidableEq, Repr

/-- The Go zero value `TlsStatus{}`. -/
def emptyTlsStatus : TlsStatus :=
  { DestinationRuleStatus := "", PeerAuthenticationStatus := "", OverallStatus := "" }

/-- The loop of `hasPeerAuthnNamespacemTLSDefinition` /
`hasPeerAuthnMeshTLSDefinition`: the first non-empty mode produced by
`PeerAuthnHasMTLSEnabled`, else empty. -/
def firstPeerAuthnMTLSMode : List PeerAuthentication → String
  | [] => ""
  | p :: rest =>
    let mode := (PeerAuthnHasMTLSEnabled p).2
    if mode != "" then mode else firstPeerAuthnMTLSMode rest

/-- `hasPeerAuthnNamespacemTLSDefinition`. -/
def MtlsStatus.hasPeerAuthnNamespacemTLSDefinition (m : MtlsStatus) : String :=
  firstPeerAuthnMTLSMode m.PeerAuthentications

/-- `hasPeerAuthnMeshTLSDefinition` (same loop over the same field). -/
def MtlsStatus.hasPeerAuthnMeshTLSDefinition (m : MtlsStatus) : String :=
  firstPeerAuthnMTLSMode m.PeerAuthentications

/-- The loop of `hasDesinationRuleEnablingNamespacemTLS`: the first non-empty
mode produced by `DestinationRuleHasNamespaceWideMTLSEnabled`, else empty. -/
def firstNamespaceWideDRMode (ns : String) (conf : Config) : List DestinationRule → String
  | [] => ""
  | dr :: rest =>
    let mode := (DestinationRuleHasNamespaceWideMTLSEnabled ns dr conf).2
    if mode != "" then mode else firstNamespaceWideDRMode ns conf rest

/-- `hasDesinationRuleEnablingNamespacemTLS` (sic, the source's spelling). -/
def MtlsStatus.hasDesinationRuleEnablingNamespacemTLS (m : MtlsStatus) (ns : String)
    (conf : Config) : String :=
  firstNamespaceWideDRMode ns conf m.DestinationRules

/-- The loop of `hasDestinationRuleMeshTLSDefinition`: the first non-empty
mode produced by `DestinationRuleHasMTLSEnabledForHost "*.local"`, else empty. -/
def firstMeshWideDRMode : List DestinationRule → String
  | [] => ""
  | dr :: rest =>
    let mode := (DestinationRuleHasMTLSEnabledForHost "*.local" dr).2
    if mode != "" then mode else firstMeshWideDRMode rest

/-- `hasDestinationRuleMeshTLSDefinition`. -/
def MtlsStatus.hasDestinationRuleMeshTLSDefinition (m : MtlsStatus) : String :=
  firstMeshWideDRMode m.DestinationRules

/-- `finalStatus`: the namespace/mesh decision table combining a destination
rule status and a peer-authentication status. -/
def MtlsStatus.finalStatus (m : MtlsStatus) (drStatus paStatus : String) : TlsStatus :=
  let mtlsEnabled := drStatus == "ISTIO_MUTUAL" || drStatus == "MUTUAL" ||
    (drStatus == "" && m.AutoMtlsEnabled)
  let mtlsDisabled := drStatus == "DISABLE" || (drStatus == "" && m.AutoMtlsEnabled)
  let finalSt :=
    if (paStatus == "STRICT" || (paStatus == "PERMISSIVE" && m.AllowPermissive)) &&
        mtlsEnabled then
      MTLSEnabled
    else if paStatus == "DISABLE" && mtlsDisabled then
      MTLSDisabled
    else if paStatus == "" && drStatus == "" then
      MTLSNotEnabled
    else
      MTLSPartiallyEnabled
  { DestinationRuleStatus := drStatus
    PeerAuthenticationStatus := paStatus
    OverallStatus := finalSt }

/-- `NamespaceMtlsStatus`. -/
def MtlsStatus.NamespaceMtlsStatus (m : MtlsStatus) (ns : String) (conf : Config) : TlsStatus :=
  m.finalStatus (m.hasDesinationRuleEnablingNamespacemTLS ns conf)
    m.hasPeerAuthnNamespacemTLSDefinition

/-- The inner destination-rule loop of the `PERMISSIVE` branch of
`WorkloadMtlsStatus`: `some` result returns from the whole function,
`none` falls through to the next candidate service. -/
def permissiveDRScan : List DestinationRule → Option String
  | [] => none
  | dr :: rest =>
    let r := DestinationRuleHasMTLSEnabled dr
    if r.1 || r.2 == "MUTUAL" then some MTLSEnabled
    else if r.2 == "DISABLE" then some MTLSDisabled
    else permissiveDRScan rest

/-- The service loop of the `PERMISSIVE` branch of `WorkloadMtlsStatus`:
skip services outside the namespace or without a selector; for services the
peer-authentication selector matches, scan the rules filtered for that
service; when everything falls through, `MTLS_NOT_ENABLED`. -/
def permissiveServiceScan (destinationRules : List DestinationRule) (ns : String)
    (conf : Config) (paSelector : List (String × String)) : List Service → String
  | [] => MTLSNotEnabled
  | svc :: rest =>
    if svc.Namespace != ns || svc.Selector.length == 0 then
      permissiveServiceScan destinationRules ns conf paSelector rest
    else if selectorMatches paSelector svc.Selector then
      match permissiveDRScan
          (FilterDestinationRulesByService destinationRules svc.Namespace svc.Name conf) with
      | some result => result
      | none => permissiveServiceScan destinationRules ns conf paSelector rest
    else
      permissiveServiceScan destinationRules ns conf paSelector rest

/-- The peer-authentication loop of `WorkloadMtlsStatus`, over the receiver
fields the loop body reads (`MatchingLabels`, `DestinationRules`,
`Services`). -/
def workloadPALoop (matchingLabels : List (String × String))
    (destinationRules : List DestinationRule) (services : List Service)
    (ns : String) (conf : Config) : List PeerAuthentication → String
  | [] => MTLSNotEnabled
  | pa :: rest =>
    match pa.Selector with
    | none => workloadPALoop matchingLabels destinationRules services ns conf rest
    | some sel =>
      let selectorLabels := sel.MatchLabels
      if selectorLabels.length == 0 then
        workloadPALoop matchingLabels destinationRules services ns conf rest
      else if !(selectorMatches selectorLabels matchingLabels) then
        workloadPALoop matchingLabels destinationRules services ns conf rest
      else
        let mode := (PeerAuthnMTLSMode pa).2
        if mode == "STRICT" then MTLSEnabled
        else if mode == "DISABLE" then MTLSDisabled
        else if mode == "PERMISSIVE" then
          if destinationRules.length == 0 then MTLSNotEnabled
          else permissiveServiceScan destinationRules ns conf selectorLabels services
        else workloadPALoop matchingLabels destinationRules services ns conf rest

/-- `WorkloadMtlsStatus`: the mTLS status at workload level, matching
`m.MatchingLabels`. -/
def MtlsStatus.WorkloadMtlsStatus (m : MtlsStatus) (ns : String) (conf : Config) : String :=
  workloadPALoop m.MatchingLabels m.DestinationRules m.Services ns conf m.PeerAuthentications

/-- `TlsStatus.hasDefinedTls`. -/
def TlsStatus.hasDefinedTls (t : TlsStatus) : Bool :=
  t.OverallStatus == MTLSEnabled || t.OverallStatus == MTLSDisabled

/-- `TlsStatus.hasPartialTlsConfig`. -/
def TlsStatus.hasPartialTlsConfig (t : TlsStatus) : Bool :=
  t.OverallStatus == MTLSPartiallyEnabled

/-- `TlsStatus.hasHalfTlsConfigDefined`. -/
def TlsStatus.hasHalfTlsConfigDefined (t : TlsStatus) (autoMtls allowPermissive : Bool) : Bool :=
  let defined :=
    if autoMtls then
      let d := (t.PeerAuthenticationStatus == "STRICT" && t.DestinationRuleStatus == "") ||
        ((t.DestinationRuleStatus == "ISTIO_MUTUAL" || t.DestinationRuleStatus == "MUTUAL") &&
          t.PeerAuthenticationStatus == "")
      if !d && allowPermissive then
        t.PeerAuthenticationStatus == "PERMISSIVE" && t.DestinationRuleStatus == ""
      else d
    else false
  defined

/-- `TlsStatus.hasNoConfig`. -/
def TlsStatus.hasNoConfig (t : TlsStatus) : Bool :=
  t.PeerAuthenticationStatus == "" && t.DestinationRuleStatus == ""

/-- `TlsStatus.hasPartialDisabledConfig`. -/
def TlsStatus.hasPartialDisabledConfig (t : TlsStatus) : Bool :=
  (t.PeerAuthenticationStatus == "DISABLE" && t.DestinationRuleStatus == "") ||
  (t.DestinationRuleStatus == "DISABLE" && t.PeerAuthenticationStatus == "")

/-- `OverallMtlsStatus`: the precedence chain over a namespace-level and a
mesh-level status.  The `inheritedOverallStatus` call of the source is
inlined here (it recurses into `OverallMtlsStatus` with the empty
`TlsStatus{}` as namespace status, for which the first two branches are
false, so the recursion is well founded). -/
def MtlsStatus.OverallMtlsStatus (m : MtlsStatus) (nsStatus meshStatus : TlsStatus) : String :=
  if nsStatus.hasDefinedTls then nsStatus.OverallStatus
  else if h : nsStatus.hasPartialTlsConfig then
    let pDRStatus :=
      if nsStatus.DestinationRuleStatus == "" then meshStatus.DestinationRuleStatus
      else nsStatus.DestinationRuleStatus
    let pPAStatus :=
      if nsStatus.PeerAuthenticationStatus == "" then meshStatus.PeerAuthenticationStatus
      else nsStatus.PeerAuthenticationStatus
    m.OverallMtlsStatus emptyTlsStatus (m.finalStatus pDRStatus pPAStatus)
  else if meshStatus.hasDefinedTls then meshStatus.OverallStatus
  else if meshStatus.hasNoConfig then MTLSNotEnabled
  else if meshStatus.hasPartialDisabledConfig then MTLSDisabled
  else if meshStatus.hasHalfTlsConfigDefined m.AutoMtlsEnabled m.AllowPermissive then MTLSEnabled
  else if !m.AutoMtlsEnabled && meshStatus.hasPartialTlsConfig then MTLSPartiallyEnabled
  else MTLSPartiallyEnabled
termination_by (if nsStatus.hasPartialTlsConfig then 1 else 0)
decreasing_by
  simp only [emptyTlsStatus, TlsStatus.hasPartialTlsConfig, MTLSPartiallyEnabled] at h ⊢
  simp [h]

/-- `inheritedOverallStatus`: fill each empty half of the namespace pair from
the mesh pair, re-run `finalStatus`, and normalize through
`OverallMtlsStatus` with an empty namespace status. -/
def MtlsStatus.inheritedOverallStatus (m : MtlsStatus) (nsStatus meshStatus : TlsStatus) :
    String :=
  let pDRStatus :=
    if nsStatus.DestinationRuleStatus == "" then meshStatus.DestinationRuleStatus
    else nsStatus.DestinationRuleStatus
  let pPAStatus :=
    if nsStatus.PeerAuthenticationStatus == "" then meshStatus.PeerAuthenticationStatus
    else nsStatus.PeerAuthenticationStatus
  m.OverallMtlsStatus emptyTlsStatus (m.finalStatus pDRStatus pPAStatus)

/-- `MeshMtlsStatus`. -/
def MtlsStatus.MeshMtlsStatus (m : MtlsStatus) : TlsStatus :=
  let drStatus := m.hasDestinationRuleMeshTLSDefinition
  let paStatus := m.hasPeerAuthnMeshTLSDefinition
  { DestinationRuleStatus := drStatus
    PeerAuthenticationStatus := paStatus
    OverallStatus := m.OverallMtlsStatus emptyTlsStatus (m.finalStatus drStatus paStatus) }

/-- The mesh-side tail of `OverallMtlsStatus` (its branches from
`meshStatus.hasDefinedTls` on), as a non-recursive function.  This is the
part of the chain that an empty namespace status falls through to. -/
def MtlsStatus.overallMeshOnly (m : MtlsStatus) (meshStatus : TlsStatus) : String :=
  if meshStatus.hasDefinedTls then meshStatus.OverallStatus
  else if meshStatus.hasNoConfig then MTLSNotEnabled
  else if meshStatus.hasPartialDisabledConfig then MTLSDisabled
  else if meshStatus.hasHalfTlsConfigDefined m.AutoMtlsEnabled m.AllowPermissive then MTLSEnabled
  else if !m.AutoMtlsEnabled && meshStatus.hasPartialTlsConfig then MTLSPartiallyEnabled
  else MTLSPartiallyEnabled

/-- On the empty namespace status the first two branches of
`OverallMtlsStatus` are false, so the call reduces to the mesh-side chain. -/
theorem overallMtlsStatus_emptyTls (m : MtlsStatus) (meshStatus : TlsStatus) :
    m.OverallMtlsStatus emptyTlsStatus meshStatus = m.overallMeshOnly meshStatus := by
  rw [MtlsStatus.OverallMtlsStatus]
  simp [emptyTlsStatus, TlsStatus.hasDefinedTls, TlsStatus.hasPartialTlsConfig,
    MTLSEnabled, MTLSDisabled, MTLSPartiallyEnabled, MtlsStatus.overallMeshOnly]

/-- `OverallMtlsStatus`, written with its single recursive call resolved:
the full function equals a computable one-pass chain. -/
theorem overallMtlsStatus_eq (m : MtlsStatus) (nsStatus meshStatus : TlsStatus) :
    m.OverallMtlsStatus nsStatus meshStatus =
      (if nsStatus.hasDefinedTls then nsStatus.OverallStatus
      else if nsStatus.hasPartialTlsConfig then
        m.overallMeshOnly (m.finalStatus
          (if nsStatus.DestinationRuleStatus == "" then meshStatus.DestinationRuleStatus
            else nsStatus.DestinationRuleStatus)
          (if nsStatus.PeerAuthenticationStatus == "" then meshStatus.PeerAuthenticationStatus
            else nsStatus.PeerAuthenticationStatus))
      else m.overallMeshOnly meshStatus) := by
  rw [MtlsStatus.OverallMtlsStatus]
  by_cases h1 : nsStatus.hasDefinedTls
  · simp [h1]
  · by_cases h2 : nsStatus.hasPartialTlsConfig
    · simp [h1, h2, overallMtlsStatus_emptyTls]
    · simp [h1, h2, MtlsStatus.overallMeshOnly]

/-! ### Spec-side comparison definitions

Each definition below follows the words of a spec sentence (not the code),
for comparison against the embedded source functions. -/

/-- The namespace-level `paStatus` as the spec sentence words it: the mTLS
mode of the first policy in the list that yields a non-empty mode, with no
workload-specific applicability check (the policy's selector is never
consulted before taking its mode). -/
def specNamespacePaStatusNoSelectorCheck : List PeerAuthentication → String
  | [] => ""
  | pa :: rest =>
    let mode := (PeerAuthnMTLSMode pa).2
    if mode != "" then mode else specNamespacePaStatusNoSelectorCheck rest

/-- What the scan over `PeerAuthnHasMTLSEnabled` actually computes: the mode
of the first policy that has no selector and a present `Spec.Mtls`; every
selector-bearing policy is skipped. -/
def firstSelectorlessPaMode : List PeerAuthentication → String
  | [] => ""
  | pa :: rest =>
    if pa.Selector = none ∧ (PeerAuthnMTLSMode pa).2 ≠ "" then (PeerAuthnMTLSMode pa).2
    else firstSelectorlessPaMode rest

/-- The port-naming convention as the spec words it: `tcp`/`udp` always
valid; otherwise the name must start with the protocol token and be either
exactly the token or the token, a dash, and a non-empty suffix. -/
def specMatchesNamingConvention (portName protocol : String) : Bool :=
  let protocol := lowerStr protocol
  if protocol == "tcp" || protocol == "udp" then true
  else if portName == protocol then true
  else hasPrefixStr portName (protocol ++ "-") && decide (lenStr portName > lenStr protocol + 1)

/-- A peer authentication applies to a workload label set per the workload
scan: its selector is present, its label-match map is non-empty, and the
map is a subset of the workload's labels. -/
def paMatchesWorkload (pa : PeerAuthentication) (lbls : List (String × String)) : Bool :=
  match pa.Selector with
  | none => false
  | some sel => !sel.MatchLabels.isEmpty && selectorMatches sel.MatchLabels lbls

/-- One exportTo token matching a viewer, as the spec words it: `*` always
matches, `.` matches the resource's own namespace, `~` never matches, any
other literal matches exactly the namespace it spells. -/
def exportTokenMatches (t resourceNamespace viewerNamespace : String) : Prop :=
  t = "*" ∨ (t = "." ∧ resourceNamespace = viewerNamespace) ∨
    (t ≠ "*" ∧ t ≠ "." ∧ t ≠ "~" ∧ t = viewerNamespace)

instance (t r v : String) : Decidable (exportTokenMatches t r v) := by
  unfold exportTokenMatches; infer_instance

/-! ### Helper lemmas -/

/-- Looking up the key just inserted returns the inserted value. -/
theorem lookup_insertEntry_self (l : List (String × KubeServiceEntry)) (k : String)
    (v : KubeServiceEntry) : (insertEntry l k v).lookup k = some v := by
  induction l with
  | nil => simp [insertEntry, List.lookup]
  | cons hd tl ih =>
    obtain ⟨hk, hv⟩ := hd
    by_cases h : hk = k
    · simp [insertEntry, h, List.lookup]
    · have hbeq : (k == hk) = false := by
        simp only [beq_eq_false_iff_ne, ne_eq]
        exact fun hh => h hh.symm
      simp [insertEntry, h, List.lookup, hbeq, ih]

/-- Inserting one key leaves lookups of other keys unchanged. -/
theorem lookup_insertEntry_ne (l : List (String × KubeServiceEntry)) (k k' : String)
    (v : KubeServiceEntry) (h : k' ≠ k) :
    (insertEntry l k v).lookup k' = l.lookup k' := by
  have hbeq : (k' == k) = false := by simp only [beq_eq_false_iff_ne, ne_eq]; exact h
  induction l with
  | nil => simp [insertEntry, List.lookup, hbeq]
  | cons hd tl ih =>
    obtain ⟨hk, hv⟩ := hd
    by_cases hh : hk = k
    · subst hh
      simp [insertEntry, List.lookup, hbeq]
    · cases hc : (k' == hk) with
      | true => simp [insertEntry, hh, List.lookup, hc]
      | false => simp [insertEntry, hh, List.lookup, hc, ih]

/-- After registering a service, each of its three key forms looks up its
entry (even when the forms coincide, since all three bind the same entry). -/
theorem lookup_registerService (conf : Config) (dflt : List String)
    (l : List (String × KubeServiceEntry)) (s : Service) :
    (registerService conf dflt l s).lookup (fqdnKey conf s) = some (entryForService s dflt) ∧
    (registerService conf dflt l s).lookup (shortFqdnKey s) = some (entryForService s dflt) ∧
    (registerService conf dflt l s).lookup (twoPartKey s) = some (entryForService s dflt) := by
  unfold registerService
  refine ⟨?_, ?_, lookup_insertEntry_self ..⟩
  · by_cases h3 : fqdnKey conf s = twoPartKey s
    · rw [h3]; exact lookup_insertEntry_self ..
    · rw [lookup_insertEntry_ne _ _ _ _ h3]
      by_cases h2 : fqdnKey conf s = shortFqdnKey s
      · rw [h2]; exact lookup_insertEntry_self ..
      · rw [lookup_insertEntry_ne _ _ _ _ h2]
        exact lookup_insertEntry_self ..
  · by_cases h3 : shortFqdnKey s = twoPartKey s
    · rw [h3]; exact lookup_insertEntry_self ..
    · rw [lookup_insertEntry_ne _ _ _ _ h3]
      exact lookup_insertEntry_self ..

/-- Appending a service to the list registers it last, so all of its key
forms map to its entry in the final index. -/
theorem lookup_newKubeServiceHosts_append (ss : List Service) (s : Service)
    (conf : Config) (dflt : List String) :
    (NewKubeServiceHosts (ss ++ [s]) conf dflt).entries.lookup (fqdnKey conf s)
        = some (entryForService s dflt) ∧
    (NewKubeServiceHosts (ss ++ [s]) conf dflt).entries.lookup (shortFqdnKey s)
        = some (entryForService s dflt) ∧
    (NewKubeServiceHosts (ss ++ [s]) conf dflt).entries.lookup (twoPartKey s)
        = some (entryForService s dflt) := by
  unfold NewKubeServiceHosts
  rw [List.foldl_append]
  exact lookup_registerService ..

/-- The scan over `PeerAuthnHasMTLSEnabled` takes the mode of the first
selector-less policy with a present mTLS block and skips every
selector-bearing policy. -/
theorem firstPeerAuthnMTLSMode_eq_selectorless (l : List PeerAuthentication) :
    firstPeerAuthnMTLSMode l = firstSelectorlessPaMode l := by
  induction l with
  | nil => rfl
  | cons pa rest ih =>
    cases hsel : pa.Selector with
    | some sel =>
      simp [firstPeerAuthnMTLSMode, firstSelectorlessPaMode, PeerAuthnHasMTLSEnabled, hsel, ih]
    | none =>
      by_cases hm : (PeerAuthnMTLSMode pa).2 = ""
      · simp [firstPeerAuthnMTLSMode, firstSelectorlessPaMode, PeerAuthnHasMTLSEnabled, hsel,
          hm, ih]
      · simp [firstPeerAuthnMTLSMode, firstSelectorlessPaMode, PeerAuthnHasMTLSEnabled, hsel,
          hm]

/-- The domain only enters the fully-qualified key through its final
segment, so two domains give the same fully-qualified key iff they are
equal. -/
theorem fqdnKey_domain_inj (c1 c2 : Config) (s : Service) :
    fqdnKey c1 s = fqdnKey c2 s ↔ c1.IstioIdentityDomain = c2.IstioIdentityDomain := by
  constructor
  · intro h
    have hd : (fqdnKey c1 s).data = (fqdnKey c2 s).data := congrArg String.data h
    simp only [fqdnKey, String.data_append] at hd
    exact String.ext (List.append_cancel_left hd)
  · intro h
    simp [fqdnKey, h]

/-- A peer authentication with no selector, or with an empty label-match
map, is skipped by the workload scan. -/
theorem workloadPALoop_skip (lbls : List (String × String))
    (drs : List DestinationRule) (svcs : List Service) (ns : String) (conf : Config)
    (pa : PeerAuthentication) (rest : List PeerAuthentication)
    (h : pa.Selector = none ∨ pa.Selector = some { MatchLabels := [] }) :
    workloadPALoop lbls drs svcs ns conf (pa :: rest) =
      workloadPALoop lbls drs svcs ns conf rest := by
  rcases h with h | h <;> simp [workloadPALoop, h]

/-- When no peer authentication in the list applies to the workload's
labels, the workload scan returns `MTLS_NOT_ENABLED`. -/
theorem workloadPALoop_no_match (lbls : List (String × String))
    (drs : List DestinationRule) (svcs : List Service) (ns : String) (conf : Config)
    (l : List PeerAuthentication)
    (h : ∀ pa ∈ l, paMatchesWorkload pa lbls = false) :
    workloadPALoop lbls drs svcs ns conf l = MTLSNotEnabled := by
  induction l with
  | nil => rfl
  | cons pa rest ih =>
    have hpa := h pa (by simp)
    have hrest : ∀ p ∈ rest, paMatchesWorkload p lbls = false := fun p hp =>
      h p (by simp [hp])
    cases hsel : pa.Selector with
    | none => simp [workloadPALoop, hsel, ih hrest]
    | some sel =>
      by_cases hlen : sel.MatchLabels.length = 0
      · simp [workloadPALoop, hsel, hlen, ih hrest]
      · have hiso : sel.MatchLabels.isEmpty = false := by
          cases hml : sel.MatchLabels with
          | nil => rw [hml] at hlen; simp at hlen
          | cons a b => rfl
        have hselm : selectorMatches sel.MatchLabels lbls = false := by
          simp [paMatchesWorkload, hsel, hiso] at hpa
          exact hpa
        simp [workloadPALoop, hsel, hlen, hselm, ih hrest]

/-! ### Claim theorems -/

/-- C1: for every pair of status strings and both mesh-wide booleans,
`finalStatus` computes its overall status exactly by the spec's decision
table: ENABLED when the peer-auth side is STRICT (or PERMISSIVE with
permissive traffic allowed) and mTLS is enabled on the rule side (rule
ISTIO_MUTUAL/MUTUAL, or no rule with auto mTLS); otherwise DISABLED when
the peer-auth side is DISABLE and mTLS is disabled on the rule side;
otherwise NOT_ENABLED when both statuses are empty; otherwise
PARTIALLY_ENABLED. -/
theorem finalStatus_decision_table (m : MtlsStatus) (drStatus paStatus : String) :
    (m.finalStatus drStatus paStatus).OverallStatus =
      if (paStatus = "STRICT" ∨ (paStatus = "PERMISSIVE" ∧ m.AllowPermissive = true)) ∧
          (drStatus = "ISTIO_MUTUAL" ∨ drStatus = "MUTUAL" ∨
            (drStatus = "" ∧ m.AutoMtlsEnabled = true)) then
        MTLSEnabled
      else if paStatus = "DISABLE" ∧
          (drStatus = "DISABLE" ∨ (drStatus = "" ∧ m.AutoMtlsEnabled = true)) then
        MTLSDisabled
      else if paStatus = "" ∧ drStatus = "" then
        MTLSNotEnabled
      else
        MTLSPartiallyEnabled := by
  simp only [MtlsStatus.finalStatus, Bool.and_eq_true, Bool.or_eq_true, beq_iff_eq, or_assoc]

/-- C2: `OverallMtlsStatus` returns the namespace overall status whenever it
is ENABLED or DISABLED, regardless of the mesh status; and when the
namespace status is PARTIALLY_ENABLED it substitutes only the empty
field(s) of the namespace pair with the corresponding mesh field(s),
re-runs `finalStatus` on the hybrid pair, and returns `OverallMtlsStatus`
of an empty namespace status and that hybrid result. -/
theorem overallMtlsStatus_ns_precedence (m : MtlsStatus) (nsStatus meshStatus : TlsStatus) :
    ((nsStatus.OverallStatus = MTLSEnabled ∨ nsStatus.OverallStatus = MTLSDisabled) →
      m.OverallMtlsStatus nsStatus meshStatus = nsStatus.OverallStatus) ∧
    (nsStatus.OverallStatus = MTLSPartiallyEnabled →
      m.OverallMtlsStatus nsStatus meshStatus =
        m.OverallMtlsStatus emptyTlsStatus
          (m.finalStatus
            (if nsStatus.DestinationRuleStatus = "" then meshStatus.DestinationRuleStatus
              else nsStatus.DestinationRuleStatus)
            (if nsStatus.PeerAuthenticationStatus = "" then meshStatus.PeerAuthenticationStatus
              else nsStatus.PeerAuthenticationStatus))) := by
  constructor
  · intro h
    rw [overallMtlsStatus_eq]
    have hd : nsStatus.hasDefinedTls = true := by
      rcases h with h | h <;> simp [TlsStatus.hasDefinedTls, h]
    simp [hd]
  · intro h
    rw [overallMtlsStatus_eq, overallMtlsStatus_emptyTls]
    have hd : nsStatus.hasDefinedTls = false := by
      simp [TlsStatus.hasDefinedTls, h, MTLSEnabled, MTLSDisabled, MTLSPartiallyEnabled]
    have hp : nsStatus.hasPartialTlsConfig = true := by
      simp [TlsStatus.hasPartialTlsConfig, h]
    simp [hd, hp, beq_iff_eq]

def mC2w : MtlsStatus :=
  { AllowPermissive := false, AutoMtlsEnabled := false, DestinationRules := [],
    MatchingLabels := [], PeerAuthentications := [], Services := [] }

def nsDefinedW : TlsStatus :=
  { DestinationRuleStatus := "ISTIO_MUTUAL", PeerAuthenticationStatus := "STRICT",
    OverallStatus := "MTLS_ENABLED" }

def nsPartialW : TlsStatus :=
  { DestinationRuleStatus := "ISTIO_MUTUAL", PeerAuthenticationStatus := "",
    OverallStatus := "MTLS_PARTIALLY_ENABLED" }

def meshStrictW : TlsStatus :=
  { DestinationRuleStatus := "", PeerAuthenticationStatus := "STRICT",
    OverallStatus := "MTLS_PARTIALLY_ENABLED" }

/-- C2 witness: the two precedence branches at concrete inputs. -/
theorem overallMtlsStatus_ns_precedence_witness :
    MtlsStatus.OverallMtlsStatus mC2w nsDefinedW meshStrictW = nsDefinedW.OverallStatus ∧
    MtlsStatus.OverallMtlsStatus mC2w nsPartialW meshStrictW =
      MtlsStatus.OverallMtlsStatus mC2w emptyTlsStatus
        (mC2w.finalStatus
          (if nsPartialW.DestinationRuleStatus = "" then meshStrictW.DestinationRuleStatus
            else nsPartialW.DestinationRuleStatus)
          (if nsPartialW.PeerAuthenticationStatus = "" then meshStrictW.PeerAuthenticationStatus
            else nsPartialW.PeerAuthenticationStatus)) :=
  ⟨(overallMtlsStatus_ns_precedence mC2w nsDefinedW meshStrictW).1 (Or.inl rfl),
    (overallMtlsStatus_ns_precedence mC2w nsPartialW meshStrictW).2 rfl⟩

/-- C10: the empty `TlsStatus` is neither fully defined nor
PARTIALLY_ENABLED, so the recursive call `OverallMtlsStatus m {} _` made by
`inheritedOverallStatus` never takes the inheritance branch again: it
equals the non-recursive mesh-side chain, and `inheritedOverallStatus`
terminates after exactly one substitution step.  (`OverallMtlsStatus` is a
total function: it is defined for all inputs by well-founded recursion.) -/
theorem overall_recursion_bound (m : MtlsStatus) (nsStatus meshStatus : TlsStatus) :
    emptyTlsStatus.hasDefinedTls = false ∧
    emptyTlsStatus.hasPartialTlsConfig = false ∧
    (∀ mesh2 : TlsStatus, m.OverallMtlsStatus emptyTlsStatus mesh2 = m.overallMeshOnly mesh2) ∧
    m.inheritedOverallStatus nsStatus meshStatus =
      m.overallMeshOnly (m.finalStatus
        (if nsStatus.DestinationRuleStatus == "" then meshStatus.DestinationRuleStatus
          else nsStatus.DestinationRuleStatus)
        (if nsStatus.PeerAuthenticationStatus == "" then meshStatus.PeerAuthenticationStatus
          else nsStatus.PeerAuthenticationStatus)) := by
  refine ⟨by decide, by decide, fun mesh2 => overallMtlsStatus_emptyTls m mesh2, ?_⟩
  unfold MtlsStatus.inheritedOverallStatus
  rw [overallMtlsStatus_emptyTls]

/-- The policy used to refute the no-selector-check reading: it bears a
selector and declares STRICT mTLS. -/
def paStrictWithSelector : PeerAuthentication :=
  { Selector := some { MatchLabels := [("app", "ratings")] }, Mtls := some .STRICT }

def mSelectorStrict : MtlsStatus :=
  { AllowPermissive := false, AutoMtlsEnabled := false, DestinationRules := [],
    MatchingLabels := [], PeerAuthentications := [paStrictWithSelector], Services := [] }

/-- C3 counterexample: on a list holding one selector-bearing STRICT policy,
the claim's selector-blind reading yields "STRICT" while the code's
namespace-level scan yields the empty mode — the selector is consulted. -/
theorem namespacePaStatus_consults_selector :
    specNamespacePaStatusNoSelectorCheck mSelectorStrict.PeerAuthentications = "STRICT" ∧
    mSelectorStrict.hasPeerAuthnNamespacemTLSDefinition = "" ∧
    ("STRICT" : String) ≠ "" := by decide

/-- C3 amended: the namespace-level `paStatus` is the mode of the first
policy for which `PeerAuthnHasMTLSEnabled` yields a non-empty mode; since
that helper returns the empty mode for every selector-bearing policy, the
scan equals taking the first selector-less policy with a present mTLS
block, and is empty when there is none. -/
theorem hasPeerAuthnNamespacemTLSDefinition_first_selectorless (m : MtlsStatus) :
    m.hasPeerAuthnNamespacemTLSDefinition = firstSelectorlessPaMode m.PeerAuthentications ∧
    ∀ ns conf, (m.NamespaceMtlsStatus ns conf).PeerAuthenticationStatus =
      firstSelectorlessPaMode m.PeerAuthentications :=
  ⟨firstPeerAuthnMTLSMode_eq_selectorless m.PeerAuthentications,
    fun _ _ => firstPeerAuthnMTLSMode_eq_selectorless m.PeerAuthentications⟩

/-- C4: every policy with a non-nil selector — whatever its match-label map
and its mTLS mode — is reported as not-globally-enabled with the empty mode
(the `len(MatchLabels) >= 0` guard is always true), so prepending such a
policy changes neither the namespace-level nor the mesh-level scan. -/
theorem peerAuthnHasMTLSEnabled_selector_bearing_ignored (pa : PeerAuthentication)
    (h : pa.Selector.isSome = true) :
    PeerAuthnHasMTLSEnabled pa = (false, "") ∧
    (∀ sel : WorkloadSelector, sel.MatchLabels.length ≥ 0) ∧
    (∀ m : MtlsStatus,
      ({ m with PeerAuthentications := pa :: m.PeerAuthentications }
          : MtlsStatus).hasPeerAuthnNamespacemTLSDefinition =
        m.hasPeerAuthnNamespacemTLSDefinition ∧
      ({ m with PeerAuthentications := pa :: m.PeerAuthentications }
          : MtlsStatus).hasPeerAuthnMeshTLSDefinition =
        m.hasPeerAuthnMeshTLSDefinition) := by
  obtain ⟨sel, hsel⟩ := Option.isSome_iff_exists.mp h
  have hmode : PeerAuthnHasMTLSEnabled pa = (false, "") := by
    simp [PeerAuthnHasMTLSEnabled, hsel]
  refine ⟨hmode, fun sel => Nat.zero_le _, fun m => ⟨?_, ?_⟩⟩ <;>
    simp [MtlsStatus.hasPeerAuthnNamespacemTLSDefinition,
      MtlsStatus.hasPeerAuthnMeshTLSDefinition, firstPeerAuthnMTLSMode, hmode]

/-- A STRICT policy whose selector is present but has an empty match map. -/
def paEmptySelectorStrict : PeerAuthentication :=
  { Selector := some { MatchLabels := [] }, Mtls := some .STRICT }

def mC4w : MtlsStatus :=
  { AllowPermissive := false, AutoMtlsEnabled := true, DestinationRules := [],
    MatchingLabels := [],
    PeerAuthentications := [{ Selector := none, Mtls := some .PERMISSIVE }],
    Services := [] }

/-- C4 witness: a selector-bearing STRICT policy with an empty match map is
ignored by the namespace scan. -/
theorem peerAuthnHasMTLSEnabled_selector_bearing_ignored_witness :
    PeerAuthnHasMTLSEnabled paEmptySelectorStrict = (false, "") ∧
    ({ mC4w with PeerAuthentications := paEmptySelectorStrict :: mC4w.PeerAuthentications }
        : MtlsStatus).hasPeerAuthnNamespacemTLSDefinition =
      mC4w.hasPeerAuthnNamespacemTLSDefinition :=
  ⟨(peerAuthnHasMTLSEnabled_selector_bearing_ignored paEmptySelectorStrict (by decide)).1,
    ((peerAuthnHasMTLSEnabled_selector_bearing_ignored paEmptySelectorStrict
      (by decide)).2.2 mC4w).1⟩

/-- C5: the workload scan skips every peer authentication whose selector is
nil or whose label-match map is empty (prepending such a policy never
changes the result), and when no peer authentication in the list matches
the workload's labels the result is `MTLS_NOT_ENABLED`. -/
theorem workloadMtlsStatus_skips_and_defaults (m : MtlsStatus) (pa : PeerAuthentication)
    (ns : String) (conf : Config)
    (hskip : pa.Selector = none ∨ pa.Selector = some { MatchLabels := [] }) :
    ({ m with PeerAuthentications := pa :: m.PeerAuthentications }
        : MtlsStatus).WorkloadMtlsStatus ns conf = m.WorkloadMtlsStatus ns conf ∧
    ((∀ p ∈ m.PeerAuthentications, paMatchesWorkload p m.MatchingLabels = false) →
      m.WorkloadMtlsStatus ns conf = MTLSNotEnabled) :=
  ⟨workloadPALoop_skip m.MatchingLabels m.DestinationRules m.Services ns conf pa
      m.PeerAuthentications hskip,
    fun h => workloadPALoop_no_match m.MatchingLabels m.DestinationRules m.Services ns conf
      m.PeerAuthentications h⟩

def mC5w : MtlsStatus :=
  { AllowPermissive := false, AutoMtlsEnabled := false, DestinationRules := [],
    MatchingLabels := [("app", "reviews")],
    PeerAuthentications := [{ Selector := some { MatchLabels := [("app", "ratings")] },
                              Mtls := some .STRICT }],
    Services := [] }

def confC5w : Config := { IstioIdentityDomain := "svc.cluster.local" }

/-- C5 witness: an empty-selector STRICT policy is skipped, and with only a
non-matching policy left the workload status is `MTLS_NOT_ENABLED`. -/
theorem workloadMtlsStatus_skips_and_defaults_witness :
    ({ mC5w with PeerAuthentications := paEmptySelectorStrict :: mC5w.PeerAuthentications }
        : MtlsStatus).WorkloadMtlsStatus "bookinfo" confC5w =
      mC5w.WorkloadMtlsStatus "bookinfo" confC5w ∧
    mC5w.WorkloadMtlsStatus "bookinfo" confC5w = MTLSNotEnabled :=
  ⟨(workloadMtlsStatus_skips_and_defaults mC5w paEmptySelectorStrict "bookinfo" confC5w
      (Or.inr rfl)).1,
    (workloadMtlsStatus_skips_and_defaults mC5w paEmptySelectorStrict "bookinfo" confC5w
      (Or.inr rfl)).2 (by decide)⟩

/-- C6: at port name "http-" with protocol "http" the code returns true —
the regexp `^[\-].*` accepts a bare trailing dash because `.*` may match the
empty suffix — while the claimed naming convention (a dash must be followed
by a non-empty suffix, as the code's own comment also says) rejects it. -/
theorem matchPortNameRule_accepts_bare_dash :
    MatchPortNameRule "http-" "http" = true ∧
    specMatchesNamingConvention "http-" "http" = false ∧
    portNameMatcherMatches "-" = true := by decide

def svcReviews : Service :=
  { Name := "reviews", Namespace := "bookinfo", Annotations := [], Selector := [], Ports := [] }

def confDomainSvc : Config := { IstioIdentityDomain := "svc" }

def svcPlainAB : Service :=
  { Name := "a", Namespace := "b", Annotations := [], Selector := [], Ports := [] }

def svcDottedName : Service :=
  { Name := "a.b", Namespace := "c", Annotations := [], Selector := [], Ports := [] }

def confDomainC : Config := { IstioIdentityDomain := "c" }

/-- C7 counterexample: with identity domain "svc" a service's fully-qualified
and short forms coincide, so it is registered under two keys, not three; and
with a dotted service name a later service overwrites an earlier service's
fully-qualified key, whose lookup then no longer yields the earlier
service's entry. -/
theorem newKubeServiceHosts_three_keys_counterexample :
    ((NewKubeServiceHosts [svcReviews] confDomainSvc []).entries.map Prod.fst) =
      ["reviews.bookinfo.svc", "reviews.bookinfo"] ∧
    fqdnKey confDomainSvc svcReviews = shortFqdnKey svcReviews ∧
    (NewKubeServiceHosts [svcPlainAB, svcDottedName] confDomainC []).entries.lookup
        (fqdnKey confDomainC svcPlainAB) =
      some { Namespace := "c", exportTo := [] } ∧
    entryForService svcPlainAB [] = { Namespace := "b", exportTo := [] } ∧
    ({ Namespace := "c", exportTo := [] } : KubeServiceEntry) ≠
      { Namespace := "b", exportTo := [] } := by decide

/-- C7 amended: every service is registered under its three key forms
`name.namespace.<identityDomain>`, `name.namespace.svc` and
`name.namespace` (which can coincide, and which a later colliding
registration can overwrite); for the last service registered all three
forms map to one shared entry holding its namespace and effective exportTo
list; the identity domain determines only the fully-qualified form, while
the short and two-part lookups are untouched by a domain change; a service
with zero declared ports is still registered. -/
theorem newKubeServiceHosts_key_forms (ss : List Service) (s : Service) (dflt : List String) :
    (∀ conf : Config,
      ((NewKubeServiceHosts (ss ++ [s]) conf dflt).entries.lookup (fqdnKey conf s) =
          some (entryForService s dflt) ∧
        (NewKubeServiceHosts (ss ++ [s]) conf dflt).entries.lookup (shortFqdnKey s) =
          some (entryForService s dflt) ∧
        (NewKubeServiceHosts (ss ++ [s]) conf dflt).entries.lookup (twoPartKey s) =
          some (entryForService s dflt)) ∧
      (NewKubeServiceHosts (ss ++ [{ s with Ports := [] }]) conf dflt).HasHost
        (twoPartKey { s with Ports := [] }) = true) ∧
    (∀ c1 c2 : Config,
      (fqdnKey c1 s = fqdnKey c2 s ↔ c1.IstioIdentityDomain = c2.IstioIdentityDomain) ∧
      (NewKubeServiceHosts (ss ++ [s]) c1 dflt).entries.lookup (shortFqdnKey s) =
        (NewKubeServiceHosts (ss ++ [s]) c2 dflt).entries.lookup (shortFqdnKey s) ∧
      (NewKubeServiceHosts (ss ++ [s]) c1 dflt).entries.lookup (twoPartKey s) =
        (NewKubeServiceHosts (ss ++ [s]) c2 dflt).entries.lookup (twoPartKey s)) := by
  refine ⟨fun conf => ⟨lookup_newKubeServiceHosts_append ss s conf dflt, ?_⟩,
    fun c1 c2 => ⟨fqdnKey_domain_inj c1 c2 s, ?_, ?_⟩⟩
  · simp [KubeServiceHosts.HasHost,
      (lookup_newKubeServiceHosts_append ss { s with Ports := [] } conf dflt).2.2]
  · rw [(lookup_newKubeServiceHosts_append ss s c1 dflt).2.1,
      (lookup_newKubeServiceHosts_append ss s c2 dflt).2.1]
  · rw [(lookup_newKubeServiceHosts_append ss s c1 dflt).2.2,
      (lookup_newKubeServiceHosts_append ss s c2 dflt).2.2]

/-- The token loop of `IsExportedTo` returns true exactly when some token in
the list matches per the token rules. -/
theorem isExportedTo_go_spec (rns vns : String) (l : List String) :
    IsExportedTo.go rns vns l = true ↔ ∃ t ∈ l, exportTokenMatches t rns vns := by
  induction l with
  | nil => simp [IsExportedTo.go]
  | cons t rest ih =>
    by_cases h1 : t = "*"
    · simp [IsExportedTo.go, h1, exportTokenMatches]
    · by_cases h2 : t = "."
      · by_cases h3 : rns = vns
        · simp [IsExportedTo.go, h1, h2, h3, exportTokenMatches]
        · simp [IsExportedTo.go, h1, h2, h3, exportTokenMatches, ih]
      · by_cases h4 : t = "~"
        · simp [IsExportedTo.go, h1, h2, h4, exportTokenMatches, ih]
        · by_cases h5 : t = vns
          · subst h5
            simp only [IsExportedTo.go, beq_iff_eq, h1, h2, h4, if_false, if_true,
              exportTokenMatches, List.mem_cons]
            constructor
            · intro _
              exact ⟨t, Or.inl rfl, Or.inr (Or.inr ⟨h1, h2, h4, rfl⟩)⟩
            · intro _
              simp [h1, h2, h4]
          · simp [IsExportedTo.go, h1, h2, h4, h5, exportTokenMatches, ih]

/-- C8: `IsExportedTo` is true when the list is empty, and otherwise true
iff some token matches — `*` always, `.` exactly when the resource and
viewer namespaces coincide, `~` never, and any other literal exactly when
it equals the viewer namespace; no token is ever rejected as unknown. -/
theorem isExportedTo_spec (exportTo : List String) (rns vns : String) :
    IsExportedTo exportTo rns vns = true ↔
      exportTo = [] ∨ ∃ t ∈ exportTo, exportTokenMatches t rns vns := by
  cases exportTo with
  | nil => simp [IsExportedTo]
  | cons t rest =>
    rw [IsExportedTo]
    simp only [List.length_cons, Nat.succ_ne_zero, beq_iff_eq, if_false,
      List.cons_ne_nil, false_or]
    exact isExportedTo_go_spec rns vns (t :: rest)

/-- C9: the effective exportTo list stored for a service is its own
annotation value when present (split on commas, trimmed, empty segments
discarded), and the mesh-wide default only when the annotation is absent;
when both are absent the list is empty and the service is visible from
every namespace; the entry so built is what the index stores under the
service's keys. -/
theorem exportTo_resolution (svc : Service) (dflt : List String) :
    (∀ ann, svc.Annotations.lookup exportToAnnotationKey = some ann →
      (entryForService svc dflt).exportTo = parseExportToAnnotationList ann) ∧
    (svc.Annotations.lookup exportToAnnotationKey = none →
      (entryForService svc dflt).exportTo = dflt) ∧
    (svc.Annotations.lookup exportToAnnotationKey = none → dflt = [] →
      (entryForService svc dflt).exportTo = [] ∧
      ∀ vns, IsExportedTo (entryForService svc dflt).exportTo svc.Namespace vns = true) ∧
    parseExportToAnnotationList "" = [] ∧
    parseExportToAnnotationList "  " = [] ∧
    (∀ ss conf,
      (NewKubeServiceHosts (ss ++ [svc]) conf dflt).entries.lookup (twoPartKey svc) =
        some (entryForService svc dflt)) := by
  refine ⟨fun ann hann => by simp [entryForService, hann],
    fun hann => by simp [entryForService, hann],
    fun hann hd => ?_, by decide, by decide,
    fun ss conf => (lookup_newKubeServiceHosts_append ss svc conf dflt).2.2⟩
  subst hd
  refine ⟨by simp [entryForService, hann], fun vns => ?_⟩
  simp [entryForService, hann, IsExportedTo]

def svcAnnotated : Service :=
  { Name := "reviews", Namespace := "bookinfo",
    Annotations := [(exportToAnnotationKey, " . , istio-system ")],
    Selector := [], Ports := [] }

def svcPlain : Service :=
  { Name := "ratings", Namespace := "bookinfo", Annotations := [], Selector := [], Ports := [] }

/-- C9 witness: an annotated service gets its parsed annotation, an
unannotated one gets the mesh default, and with neither the list is empty
and the service is visible from another namespace. -/
theorem exportTo_resolution_witness :
    (entryForService svcAnnotated ["*"]).exportTo =
      parseExportToAnnotationList " . , istio-system " ∧
    (entryForService svcPlain ["*"]).exportTo = ["*"] ∧
    (entryForService svcPlain []).exportTo = [] ∧
    IsExportedTo (entryForService svcPlain []).exportTo svcPlain.Namespace "other-ns" = true :=
  ⟨(exportTo_resolution svcAnnotated ["*"]).1 " . , istio-system " (by decide),
    (exportTo_resolution svcPlain ["*"]).2.1 (by decide),
    ((exportTo_resolution svcPlain []).2.2.1 (by decide) rfl).1,
    ((exportTo_resolution svcPlain []).2.2.1 (by decide) rfl).2 "other-ns"⟩
